import Mathlib

/-!
Verification of the PSA host-side protocol library (framing, CRC, parser,
client pipeline).  The implementation package `psa_protocol` is not part of
the source tree (only its test suite and callers are), so the definitions
below are modelled from the specification, with behaviour pinned by the
repository's own unit tests (`tests/test_protocol/test_crc.py`,
`tests/test_protocol/test_frame.py`) wherever the two disagree.

Bytes are represented as `Nat` values; byte-width truncation is written
explicitly with `% 256` where it matters.
-/

/-- Start-of-frame sentinel, `STX = 0x02`. -/
def STX : Nat := 0x02

/-- End-of-frame sentinel, `ETX = 0x03`. -/
def ETX : Nat := 0x03

/-- Inclusive maximum payload length in bytes. -/
def MAX_PAYLOAD : Nat := 64

/-- Request command code `PING = 0x01`. -/
def Command.PING : Nat := 0x01

/-- Request command code `TEST_SINGLE = 0x11`. -/
def Command.TEST_SINGLE : Nat := 0x11

/-- Request command code `SET_SPEC = 0x20`. -/
def Command.SET_SPEC : Nat := 0x20

/-- Reply code `NAK = 0x7F`. -/
def Response.NAK : Nat := 0x7F

/-- Reply code `TEST_RESULT = 0x13`. -/
def Response.TEST_RESULT : Nat := 0x13

/-- NAK error code `INVALID_SENSOR_ID = 0x03`. -/
def ErrorCode.INVALID_SENSOR_ID : Nat := 0x03

/-- Modelled from the spec: §4.1, one shift-and-reduce step of CRC-8/CCITT
(polynomial `0x07`, MSB first, no reflection). -/
def CRC8.step (c : Nat) : Nat :=
  if 128 ≤ c % 256 then (((c % 256) * 2) ^^^ 0x07) % 256 else ((c % 256) * 2) % 256

/-- Modelled from the spec: §4.1, the CRC of a single byte — eight iterations
of `CRC8.step`; entry `b` of the precomputed table. -/
def CRC8.byteCRC (b : Nat) : Nat := CRC8.step^[8] (b % 256)

/-- Modelled from the spec: §4.1, the precomputed 256-entry byte-indexed
lookup table (`CRC8._TABLE` in the source's tests). -/
def CRC8.table : List Nat := (List.range 256).map CRC8.byteCRC

/-- Modelled from the spec: §4.1, `calculate(bytes) → u8` — initial value
`0x00`, then `crc ← table[crc XOR byte]` over the input sequence. -/
def CRC8.calculate (data : List Nat) : Nat :=
  data.foldl (fun c b => CRC8.table.getD ((c ^^^ b) % 256) 0) 0

/-- Modelled from the spec: §4.1, `verify(bytes, u8) → bool`, true iff the
expected value equals the computed value. -/
def CRC8.verify (data : List Nat) (expected : Nat) : Bool :=
  CRC8.calculate data == expected

/-- Modelled from the spec: §3, the frame record `{cmd: u8, payload: bytes}`. -/
structure Frame where
  cmd : Nat
  payload : List Nat
deriving DecidableEq, Repr

/-- Modelled from the spec: §3, `payload_len` — the length of the payload. -/
def Frame.payload_len (f : Frame) : Nat := f.payload.length

/-- Error raised when a frame with an oversized payload is constructed or
built (`ValueError("... exceeds maximum ...")` in the source's tests,
`ArgumentError` in the spec's taxonomy §7). -/
inductive FrameError
  | payloadTooLarge
deriving DecidableEq, Repr

/-- Modelled from the spec: §3, the validating frame constructor — a frame
cannot be constructed with payload longer than `MAX_PAYLOAD`. -/
def Frame.make (cmd : Nat) (payload : List Nat) : Except FrameError Frame :=
  if MAX_PAYLOAD < payload.length then .error .payloadTooLarge
  else .ok ⟨cmd, payload⟩

/-- Modelled from the spec: §4.2, the raw wire encoding
`STX | LEN | CMD | PAYLOAD | CRC | ETX`, `LEN = |payload|`, CRC over
`LEN | CMD | PAYLOAD` (STX excluded). -/
def frameBytes (cmd : Nat) (payload : List Nat) : List Nat :=
  STX :: payload.length :: cmd ::
    (payload ++ [CRC8.calculate (payload.length :: cmd :: payload), ETX])

/-- Modelled from the spec: §4.2, `FrameBuilder.build` — errors if
`LEN > MAX_PAYLOAD`, otherwise emits the wire encoding. -/
def FrameBuilder.build (f : Frame) : Except FrameError (List Nat) :=
  if MAX_PAYLOAD < f.payload.length then .error .payloadTooLarge
  else .ok (frameBytes f.cmd f.payload)

/-- Modelled from the spec: §4.2, convenience constructor for `PING`. -/
def FrameBuilder.build_ping : List Nat := frameBytes Command.PING []

/-- Modelled from the spec: §4.2, convenience constructor for
`TEST_SINGLE | sensor_id`. -/
def FrameBuilder.build_test_single (sensor_id : Nat) : List Nat :=
  frameBytes Command.TEST_SINGLE [sensor_id]

/-- Result of one `FrameParser.parse` attempt. -/
inductive ParseResult
  | OK
  | INCOMPLETE
  | CRC_ERROR
  | FORMAT_ERROR
deriving DecidableEq, Repr

/-- Number of leading non-`STX` garbage bytes the parser discards
(§4.3 step 1). -/
def scanLen (buf : List Nat) : Nat :=
  (buf.takeWhile (fun b => b != STX)).length

/-- Modelled from the spec: §4.3 steps 2–7, parsing once the leading garbage
has been discarded.  `skip` is the number of garbage bytes already dropped;
it is added into the consumed count.  One deliberate divergence from the
spec's step ordering: the length byte is validated as soon as it is
buffered (two bytes suffice for FORMAT_ERROR on an oversized LEN), which is
the behaviour the repository's own test
`test_parse_format_error_large_len` (test_frame.py:221-231) requires. -/
def parseFrom (skip : Nat) (b : List Nat) : ParseResult × Option Frame × Nat :=
  match b with
  | [] => (ParseResult.INCOMPLETE, none, skip)
  | [_] => (ParseResult.INCOMPLETE, none, skip)
  | _stx :: len :: rest =>
    if MAX_PAYLOAD < len then (ParseResult.FORMAT_ERROR, none, skip + 1)
    else
      match rest with
      | [] => (ParseResult.INCOMPLETE, none, skip)
      | cmd :: body =>
        match body.drop len with
        | crcByte :: etxByte :: _ =>
          if etxByte ≠ ETX then (ParseResult.FORMAT_ERROR, none, skip + 1)
          else if CRC8.calculate (len :: cmd :: body.take len) ≠ crcByte then
            (ParseResult.CRC_ERROR, none, skip + 1)
          else (ParseResult.OK, some ⟨cmd, body.take len⟩, skip + len + 5)
        | _ => (ParseResult.INCOMPLETE, none, skip)

/-- Modelled from the spec: §4.3, one `parse()` attempt on a buffer: discard
leading garbage up to the first `STX`, then parse.  Returns the result, the
frame (on OK only) and the number of head bytes consumed. -/
def parseBuf (buf : List Nat) : ParseResult × Option Frame × Nat :=
  parseFrom (scanLen buf) (buf.drop (scanLen buf))

/-- Modelled from the spec: §4.3, the stateful parser — a byte accumulator. -/
structure FrameParser where
  buffer : List Nat
deriving DecidableEq, Repr

/-- A fresh parser with an empty buffer. -/
def FrameParser.new : FrameParser := ⟨[]⟩

/-- Modelled from the spec: §4.3, `feed(bytes)` appends to the buffer. -/
def FrameParser.feed (p : FrameParser) (data : List Nat) : FrameParser :=
  ⟨p.buffer ++ data⟩

/-- Modelled from the spec: §4.3, `clear()` drops all buffered bytes. -/
def FrameParser.clear (_p : FrameParser) : FrameParser := ⟨[]⟩

/-- Modelled from the spec: §4.3, `buffer_size` — observable accumulator
size. -/
def FrameParser.buffer_size (p : FrameParser) : Nat := p.buffer.length

/-- Modelled from the spec: §4.3, `parse()` — one parse attempt; consumed
bytes are removed from the head of the buffer. -/
def FrameParser.parse (p : FrameParser) :
    ParseResult × Option Frame × Nat × FrameParser :=
  ((parseBuf p.buffer).1, (parseBuf p.buffer).2.1, (parseBuf p.buffer).2.2,
    ⟨p.buffer.drop (parseBuf p.buffer).2.2⟩)

/-- The buffer left after one `parse()` call: the consumed bytes are dropped
from the head.  Iterating this models repeated `parse()` calls with no
intervening `feed`. -/
def parseStep (buf : List Nat) : List Nat := buf.drop (parseBuf buf).2.2

/-- Repeated `parse()` calls on `buf` (with no further `feed`) eventually
return `OK` carrying exactly the frame `f`. -/
def eventuallyOK (buf : List Nat) (f : Frame) : Prop :=
  ∃ n, (parseBuf (parseStep^[n] buf)).1 = ParseResult.OK ∧
    (parseBuf (parseStep^[n] buf)).2.1 = some f

/-- Errors surfaced by the client request pipeline (§7): `NAKError(code)`,
`ArgumentError`, `TimeoutError`, `ProtocolError`. -/
inductive ClientError
  | nak (code : Nat)
  | argument
  | timeout
  | protocol
deriving DecidableEq, Repr

/-- Modelled from the spec: §4.4 step 3, the reply loop — parse the buffered
reply bytes until a frame is extracted, skipping over CRC/format errors and
garbage; gives up (deadline) when no progress is possible. -/
def parseLoop : Nat → List Nat → Option Frame
  | 0, _ => none
  | fuel + 1, buf =>
    match parseBuf buf with
    | (ParseResult.OK, f, _) => f
    | (_, _, c) => if c = 0 then none else parseLoop fuel (buf.drop c)

/-- Modelled from the spec: §4.4 and §8 scenario 3 — `test_single(sensor_id)`
builds `TEST_SINGLE | sensor_id`, writes it to the transport, parses the
device's reply, raises `NAKError(code)` on a `NAK` reply and returns the
report frame on `TEST_RESULT`.  The device is modelled as a function from
the written request bytes to the reply bytes; the first component of the
result is the byte sequence written to the transport. -/
def Client.test_single (sensor_id : Nat) (device : List Nat → List Nat) :
    List Nat × Except ClientError Frame :=
  let request := FrameBuilder.build_test_single sensor_id
  let reply := device request
  match parseLoop (reply.length + 1) reply with
  | none => (request, .error ClientError.timeout)
  | some f =>
    if f.cmd = Response.NAK then
      (request, .error (ClientError.nak (f.payload.getD 0 0)))
    else if f.cmd = Response.TEST_RESULT then (request, .ok f)
    else (request, .error ClientError.protocol)

/-- The reply a device sends when rejecting a request for an invalid sensor
id: a `NAK` frame whose payload is `{INVALID_SENSOR_ID}` (§8 scenario 3). -/
def nakInvalidSensorReply : List Nat :=
  frameBytes Response.NAK [ErrorCode.INVALID_SENSOR_ID]

/-- Decidable equality for `Except`, so that concrete outcomes of the
fallible operations can be checked by evaluation. -/
instance {e a : Type} [DecidableEq e] [DecidableEq a] : DecidableEq (Except e a)
  | Except.ok x, Except.ok y =>
      if h : x = y then isTrue (by rw [h])
      else isFalse (by intro hc; injection hc with h2; exact h h2)
  | Except.ok _, Except.error _ => isFalse (by intro hc; exact Except.noConfusion hc)
  | Except.error _, Except.ok _ => isFalse (by intro hc; exact Except.noConfusion hc)
  | Except.error x, Except.error y =>
      if h : x = y then isTrue (by rw [h])
      else isFalse (by intro hc; injection hc with h2; exact h h2)

/-! ## Helper lemmas -/

theorem drop_append_self (xs ys : List Nat) : (xs ++ ys).drop xs.length = ys := by
  induction xs with
  | nil => rfl
  | cons x t ih =>
      simp only [List.cons_append, List.length_cons, List.drop_succ_cons]
      exact ih

theorem take_append_self (xs ys : List Nat) : (xs ++ ys).take xs.length = xs := by
  induction xs with
  | nil => rfl
  | cons x t ih =>
      simp only [List.cons_append, List.length_cons, List.take_succ_cons, ih]

theorem scanLen_stx_cons (r : List Nat) : scanLen (STX :: r) = 0 := rfl

theorem scanLen_le (buf : List Nat) : scanLen buf ≤ buf.length := by
  unfold scanLen
  induction buf with
  | nil => simp
  | cons x t ih =>
      rw [List.takeWhile_cons]
      split
      · simpa using ih
      · simp

theorem scanLen_garbage_append (g r : List Nat) (hg : ∀ b ∈ g, b ≠ STX) :
    scanLen (g ++ STX :: r) = g.length := by
  induction g with
  | nil => simpa using scanLen_stx_cons r
  | cons x t ih =>
      have hx : (x != STX) = true := by
        simpa using hg x (by simp)
      unfold scanLen at *
      rw [List.cons_append, List.takeWhile_cons, hx]
      simpa using ih (fun b hb => hg b (by simp [hb]))

theorem frameBytes_length (cmd : Nat) (payload : List Nat) :
    (frameBytes cmd payload).length = payload.length + 5 := by
  simp [frameBytes]

theorem parseFrom_ok (skip cmd : Nat) (payload : List Nat)
    (h : payload.length ≤ MAX_PAYLOAD) :
    parseFrom skip (STX :: payload.length :: cmd ::
      (payload ++ [CRC8.calculate (payload.length :: cmd :: payload), ETX])) =
      (ParseResult.OK, some ⟨cmd, payload⟩, skip + payload.length + 5) := by
  have hdrop :
      (payload ++ [CRC8.calculate (payload.length :: cmd :: payload), ETX]).drop
        payload.length = [CRC8.calculate (payload.length :: cmd :: payload), ETX] :=
    drop_append_self _ _
  have htake :
      (payload ++ [CRC8.calculate (payload.length :: cmd :: payload), ETX]).take
        payload.length = payload :=
    take_append_self _ _
  simp only [parseFrom, hdrop, htake,
    if_neg (show ¬ MAX_PAYLOAD < payload.length by omega)]
  simp

theorem parseBuf_frameBytes (cmd : Nat) (payload : List Nat)
    (h : payload.length ≤ MAX_PAYLOAD) :
    parseBuf (frameBytes cmd payload) =
      (ParseResult.OK, some ⟨cmd, payload⟩, payload.length + 5) := by
  unfold parseBuf frameBytes
  rw [scanLen_stx_cons, List.drop_zero]
  simpa using parseFrom_ok 0 cmd payload h

theorem parseBuf_garbage_frameBytes (g : List Nat) (cmd : Nat) (payload : List Nat)
    (hg : ∀ b ∈ g, b ≠ STX) (h : payload.length ≤ MAX_PAYLOAD) :
    parseBuf (g ++ frameBytes cmd payload) =
      (ParseResult.OK, some ⟨cmd, payload⟩, g.length + payload.length + 5) := by
  unfold parseBuf frameBytes
  rw [scanLen_garbage_append g _ hg, drop_append_self]
  exact parseFrom_ok g.length cmd payload h

theorem parseFrom_spec (skip : Nat) (b : List Nat) :
    skip ≤ (parseFrom skip b).2.2 ∧
    (parseFrom skip b).2.2 ≤ skip + b.length ∧
    ((parseFrom skip b).1 = ParseResult.INCOMPLETE → (parseFrom skip b).2.2 = skip) ∧
    ((parseFrom skip b).1 ≠ ParseResult.INCOMPLETE → skip + 1 ≤ (parseFrom skip b).2.2) := by
  unfold parseFrom
  split
  · simp
  · simp
  · rename_i stx len rest
    split
    · simp
    · split
      · simp
      · rename_i cmd body
        split
        · rename_i crcByte etxByte tail heq
          have hlen : body.length = len + tail.length + 2 := by
            have := congrArg List.length heq
            simp only [List.length_drop, List.length_cons] at this
            omega
          split
          · simp
            try omega
          · split
            · simp
              try omega
            · simp
              try omega
        · simp

theorem parseBuf_consumed_le (buf : List Nat) : (parseBuf buf).2.2 ≤ buf.length := by
  unfold parseBuf
  have h1 := scanLen_le buf
  have h2 := (parseFrom_spec (scanLen buf) (buf.drop (scanLen buf))).2.1
  simp only [List.length_drop] at h2
  omega

theorem parse_terminates (k : Nat) : ∀ buf : List Nat, buf.length ≤ k →
    (parseBuf (parseStep^[k] buf)).2.2 = 0 := by
  induction k with
  | zero =>
      intro buf h
      have hnil : buf = [] := List.eq_nil_of_length_eq_zero (Nat.le_zero.mp h)
      subst hnil
      rfl
  | succ m ih =>
      intro buf h
      by_cases h0 : (parseBuf buf).2.2 = 0
      · have hfix : parseStep buf = buf := by
          unfold parseStep
          rw [h0, List.drop_zero]
        rw [Function.iterate_fixed hfix]
        exact h0
      · have hle := parseBuf_consumed_le buf
        have hlt : (parseStep buf).length < buf.length := by
          unfold parseStep
          rw [List.length_drop]
          omega
        rw [Function.iterate_succ_apply]
        exact ih (parseStep buf) (by omega)

/-! ## Claim theorems -/

/-- C1: for every command byte `cmd` and payload with `|payload| ≤ MAX_PAYLOAD`,
`FrameBuilder.build` succeeds with the wire bytes, and feeding those bytes
into a fresh `FrameParser` and calling `parse()` returns `OK` with a frame
whose `cmd` and `payload` equal the originals, consuming exactly
`|payload| + 5` bytes (leaving the buffer empty). -/
theorem C1_frame_roundtrip (cmd : Nat) (payload : List Nat)
    (_hcmd : cmd < 256) (_hbytes : ∀ b ∈ payload, b < 256)
    (hlen : payload.length ≤ MAX_PAYLOAD) :
    FrameBuilder.build ⟨cmd, payload⟩ = Except.ok (frameBytes cmd payload) ∧
    (FrameParser.new.feed (frameBytes cmd payload)).parse =
      (ParseResult.OK, some ⟨cmd, payload⟩, payload.length + 5, FrameParser.new) := by
  constructor
  · unfold FrameBuilder.build
    rw [if_neg (show ¬ MAX_PAYLOAD < payload.length by omega)]
  · have hfeed : FrameParser.new.feed (frameBytes cmd payload) =
        ⟨frameBytes cmd payload⟩ := by
      unfold FrameParser.new FrameParser.feed
      rw [List.nil_append]
    rw [hfeed]
    unfold FrameParser.parse
    rw [parseBuf_frameBytes cmd payload hlen]
    have hdrop : (frameBytes cmd payload).drop (payload.length + 5) = [] := by
      apply List.drop_eq_nil_of_le
      rw [frameBytes_length]
    simp [hdrop, FrameParser.new]

/-- Witness for C1 at `cmd = PING`, `payload = []`. -/
theorem C1_frame_roundtrip_witness :
    FrameBuilder.build ⟨1, []⟩ = Except.ok (frameBytes 1 []) ∧
    (FrameParser.new.feed (frameBytes 1 [])).parse =
      (ParseResult.OK, some ⟨1, []⟩, 5, FrameParser.new) :=
  C1_frame_roundtrip 1 [] (by decide) (by simp) (by decide)

/-- C4: the CRC fixtures — `calculate` of the empty string, of `{0x01}` and of
`{0xFF}`; determinism; and the first eight entries and the size of the
lookup table. -/
theorem C4_crc_fixtures :
    CRC8.calculate [] = 0x00 ∧ CRC8.calculate [0x01] = 0x07 ∧
    CRC8.calculate [0xFF] = 0xF3 ∧
    (∀ x : List Nat, CRC8.calculate x = CRC8.calculate x) ∧
    CRC8.table.take 8 = [0x00, 0x07, 0x0E, 0x09, 0x1C, 0x1B, 0x12, 0x15] ∧
    CRC8.table.length = 256 :=
  ⟨by decide, by decide, by decide, fun _ => rfl, by decide, by simp [CRC8.table]⟩

/-- C5: `verify(data, expected)` is true iff `expected` equals
`calculate(data)`, and any single-bit flip of the checksum makes `verify`
return false. -/
theorem C5_verify_iff (data : List Nat) (expected : Nat) :
    (CRC8.verify data expected = true ↔ expected = CRC8.calculate data) ∧
    ∀ i, i < 8 → CRC8.verify data (CRC8.calculate data ^^^ 2 ^ i) = false := by
  constructor
  · unfold CRC8.verify
    rw [beq_iff_eq]
    exact eq_comm
  · intro i _hi
    unfold CRC8.verify
    rw [beq_eq_false_iff_ne]
    intro hEq
    have h3 : CRC8.calculate data ^^^ (CRC8.calculate data ^^^ 2 ^ i) = 2 ^ i := by
      rw [← Nat.xor_assoc, Nat.xor_self, Nat.zero_xor]
    rw [← hEq, Nat.xor_self] at h3
    exact absurd h3.symm (Nat.pos_iff_ne_zero.mp (Nat.pos_pow_of_pos i (by omega)))

/-- Witness for C5 at `data = {0x00, 0x01}`, bit 0. -/
theorem C5_verify_iff_witness :
    CRC8.verify [0x00, 0x01] (CRC8.calculate [0x00, 0x01] ^^^ 2 ^ 0) = false :=
  (C5_verify_iff [0x00, 0x01] 0).2 0 (by decide)

/-- C6: the builder emits exactly `STX | LEN | CMD | PAYLOAD | CRC | ETX` with
`LEN = |payload|` and the CRC computed over `LEN | CMD | PAYLOAD` (STX not
covered); `build_ping()` is exactly `{0x02, 0x00, 0x01, calculate({0x00,
0x01}), 0x03}`, and that CRC byte is `0x07`. -/
theorem C6_builder_layout (cmd : Nat) (payload : List Nat)
    (hlen : payload.length ≤ MAX_PAYLOAD) :
    FrameBuilder.build ⟨cmd, payload⟩ =
      Except.ok (STX :: payload.length :: cmd ::
        (payload ++ [CRC8.calculate (payload.length :: cmd :: payload), ETX])) ∧
    FrameBuilder.build_ping =
      [0x02, 0x00, 0x01, CRC8.calculate [0x00, 0x01], 0x03] ∧
    CRC8.calculate [0x00, 0x01] = 0x07 := by
  refine ⟨?_, by decide, by decide⟩
  unfold FrameBuilder.build frameBytes
  rw [if_neg (show ¬ MAX_PAYLOAD < payload.length by omega)]

/-- Witness for C6 at `cmd = TEST_SINGLE`, `payload = {0x02}`. -/
theorem C6_builder_layout_witness :
    FrameBuilder.build ⟨17, [2]⟩ =
      Except.ok (STX :: 1 :: 17 :: ([2] ++ [CRC8.calculate (1 :: 17 :: [2]), ETX])) ∧
    FrameBuilder.build_ping =
      [0x02, 0x00, 0x01, CRC8.calculate [0x00, 0x01], 0x03] ∧
    CRC8.calculate [0x00, 0x01] = 0x07 :=
  C6_builder_layout 17 [2] (by decide)

/-- C2 as stated is false: garbage is not arbitrary.  The two garbage bytes
`{STX, STX}` in front of the well-formed PING frame make the parser treat
`STX, 0x02` as a frame header (LEN = 2); the CRC check fails, one byte is
dropped, and the parser is then stuck at INCOMPLETE forever — the frame
`{cmd = PING, payload = {}}` is never produced. -/
theorem C2_counterexample :
    ¬ eventuallyOK ([STX, STX] ++ frameBytes Command.PING [])
      ⟨Command.PING, []⟩ := by
  intro hev
  obtain ⟨n, hOK, _hf⟩ := hev
  have hB : ([STX, STX] ++ frameBytes Command.PING []) =
      [2, 2, 2, 0, 1, 7, 3] := by decide
  rw [hB] at hOK
  cases n with
  | zero =>
      rw [Function.iterate_zero_apply] at hOK
      exact absurd hOK (by decide)
  | succ m =>
      have hstep : parseStep [2, 2, 2, 0, 1, 7, 3] = [2, 2, 0, 1, 7, 3] := by
        decide
      have hfix : parseStep [2, 2, 0, 1, 7, 3] = [2, 2, 0, 1, 7, 3] := by
        decide
      rw [Function.iterate_succ_apply, hstep, Function.iterate_fixed hfix] at hOK
      exact absurd hOK (by decide)

/-- C2 amended: for garbage that contains no `STX` byte, a following
well-formed frame is always recovered — in fact the very next `parse()`
returns `OK` with exactly that frame. -/
theorem C2_garbage_recovery (g : List Nat) (cmd : Nat) (payload : List Nat)
    (hg : ∀ b ∈ g, b ≠ STX) (hlen : payload.length ≤ MAX_PAYLOAD) :
    eventuallyOK (g ++ frameBytes cmd payload) ⟨cmd, payload⟩ := by
  refine ⟨0, ?_, ?_⟩ <;>
    rw [Function.iterate_zero_apply, parseBuf_garbage_frameBytes g cmd payload hg hlen]

/-- Witness for the amended C2 at garbage `{0xAA, 0xBB}` before a PING frame. -/
theorem C2_garbage_recovery_witness :
    eventuallyOK ([0xAA, 0xBB] ++ frameBytes 1 []) ⟨1, []⟩ :=
  C2_garbage_recovery [0xAA, 0xBB] 1 [] (by decide) (by decide)

/-- C3: parser liveness and buffer accounting.  Every `parse()` either
returns INCOMPLETE having consumed nothing, or consumes at least one byte;
any non-INCOMPLETE result (OK, CRC_ERROR, FORMAT_ERROR) consumes at least
one byte; skipped garbage is always consumed; the buffer shrinks by exactly
the consumed count and grows only under `feed`; and iterating `parse()` on
a fixed buffer reaches, within `buffer_size` steps, a state that consumes
nothing — so repeated parsing terminates. -/
theorem C3_parser_liveness (p : FrameParser) (d : List Nat) :
    ((p.parse.1 = ParseResult.INCOMPLETE ∧ p.parse.2.2.1 = 0) ∨ 1 ≤ p.parse.2.2.1) ∧
    p.parse.2.2.2.buffer_size + p.parse.2.2.1 = p.buffer_size ∧
    (p.parse.1 ≠ ParseResult.INCOMPLETE → 1 ≤ p.parse.2.2.1) ∧
    (p.parse.1 = ParseResult.OK → 1 ≤ p.parse.2.2.1) ∧
    scanLen p.buffer ≤ p.parse.2.2.1 ∧
    (p.feed d).buffer_size = p.buffer_size + d.length ∧
    (parseBuf (parseStep^[p.buffer_size] p.buffer)).2.2 = 0 := by
  obtain ⟨hskip, hub, hinc, hnotinc⟩ :=
    parseFrom_spec (scanLen p.buffer) (p.buffer.drop (scanLen p.buffer))
  have hparse : p.parse = ((parseBuf p.buffer).1, (parseBuf p.buffer).2.1,
      (parseBuf p.buffer).2.2, ⟨p.buffer.drop (parseBuf p.buffer).2.2⟩) := rfl
  have hpb : parseBuf p.buffer =
      parseFrom (scanLen p.buffer) (p.buffer.drop (scanLen p.buffer)) := rfl
  have hle := parseBuf_consumed_le p.buffer
  refine ⟨?_, ?_, ?_, ?_, ?_, ?_, ?_⟩
  · rw [hparse]
    simp only [hpb]
    by_cases hr : (parseFrom (scanLen p.buffer) (p.buffer.drop (scanLen p.buffer))).1 =
        ParseResult.INCOMPLETE
    · rcases Nat.eq_zero_or_pos (scanLen p.buffer) with h0 | h1
      · exact Or.inl ⟨hr, by rw [hinc hr, h0]⟩
      · exact Or.inr (le_trans h1 hskip)
    · exact Or.inr (le_trans (Nat.le_add_left 1 _) (hnotinc hr))
  · rw [hparse]
    simp only [FrameParser.buffer_size, List.length_drop]
    omega
  · rw [hparse]
    simp only [hpb]
    intro hr
    exact le_trans (Nat.le_add_left 1 _) (hnotinc hr)
  · rw [hparse]
    simp only [hpb]
    intro hr
    have : (parseFrom (scanLen p.buffer) (p.buffer.drop (scanLen p.buffer))).1 ≠
        ParseResult.INCOMPLETE := by
      rw [hr]
      intro hcon
      exact absurd hcon (by decide)
    exact le_trans (Nat.le_add_left 1 _) (hnotinc this)
  · rw [hparse]
    simp only [hpb]
    exact hskip
  · simp [FrameParser.feed, FrameParser.buffer_size]
  · exact parse_terminates p.buffer_size p.buffer le_rfl

/-- Witness for C3 at a buffer holding one complete PING frame and feed data
`{0xAA}`: the parse is OK and consumes at least one byte. -/
theorem C3_parser_liveness_witness :
    1 ≤ ((FrameParser.mk [2, 0, 1, 7, 3]).parse).2.2.1 :=
  (C3_parser_liveness ⟨[2, 0, 1, 7, 3]⟩ [0xAA]).2.2.2.1 (by decide)

/-- C7 as stated is false: with only the two bytes `{STX, 100}` buffered
(fewer than 3 bytes), `parse()` does not return INCOMPLETE — the oversized
LEN byte already triggers FORMAT_ERROR, exactly as the repository's test
`test_parse_format_error_large_len` requires. -/
theorem C7_counterexample :
    (FrameParser.mk [STX, 100]).parse.1 ≠ ParseResult.INCOMPLETE ∧
    (FrameParser.mk [STX, 100]).parse.1 = ParseResult.FORMAT_ERROR := by
  constructor
  · decide
  · decide

/-- C7 amended: length validation needs only the LEN byte, not the full
3-byte header.  A buffer holding just `STX` is INCOMPLETE; once the LEN
byte is buffered, `LEN > MAX_PAYLOAD` yields FORMAT_ERROR (dropping the
leading STX), while `LEN ≤ MAX_PAYLOAD` with an incomplete frame yields
INCOMPLETE consuming nothing. -/
theorem C7_header_length_order :
    (FrameParser.mk [STX]).parse =
      (ParseResult.INCOMPLETE, none, 0, FrameParser.mk [STX]) ∧
    (∀ L, MAX_PAYLOAD < L → (FrameParser.mk [STX, L]).parse =
      (ParseResult.FORMAT_ERROR, none, 1, FrameParser.mk [L])) ∧
    (∀ L, L ≤ MAX_PAYLOAD → (FrameParser.mk [STX, L]).parse =
      (ParseResult.INCOMPLETE, none, 0, FrameParser.mk [STX, L])) := by
  refine ⟨by decide, ?_, ?_⟩
  · intro L hL
    have hpb : parseBuf [STX, L] = (ParseResult.FORMAT_ERROR, none, 1) := by
      show (if MAX_PAYLOAD < L then (ParseResult.FORMAT_ERROR, none, 0 + 1)
          else (ParseResult.INCOMPLETE, none, 0) : ParseResult × Option Frame × Nat) =
        (ParseResult.FORMAT_ERROR, none, 1)
      rw [if_pos hL]
    unfold FrameParser.parse
    rw [hpb]
    rfl
  · intro L hL
    have hpb : parseBuf [STX, L] = (ParseResult.INCOMPLETE, none, 0) := by
      show (if MAX_PAYLOAD < L then (ParseResult.FORMAT_ERROR, none, 0 + 1)
          else (ParseResult.INCOMPLETE, none, 0) : ParseResult × Option Frame × Nat) =
        (ParseResult.INCOMPLETE, none, 0)
      rw [if_neg (Nat.not_lt.mpr hL)]
    unfold FrameParser.parse
    rw [hpb]
    rfl

/-- Witness for the amended C7 at `LEN = 100` and `LEN = 3`. -/
theorem C7_header_length_order_witness :
    (FrameParser.mk [STX, 100]).parse =
      (ParseResult.FORMAT_ERROR, none, 1, FrameParser.mk [100]) ∧
    (FrameParser.mk [STX, 3]).parse =
      (ParseResult.INCOMPLETE, none, 0, FrameParser.mk [STX, 3]) :=
  ⟨C7_header_length_order.2.1 100 (by decide),
   C7_header_length_order.2.2 3 (by decide)⟩

/-- C8: constructing or building a frame with a 65-byte payload fails with
the argument error before any bytes exist, a 64-byte payload is accepted,
and every successfully constructed frame has `payload_len = |payload| ≤
MAX_PAYLOAD`. -/
theorem C8_oversized_payload :
    Frame.make Command.SET_SPEC (List.replicate 65 0) =
      Except.error FrameError.payloadTooLarge ∧
    FrameBuilder.build ⟨Command.SET_SPEC, List.replicate 65 0⟩ =
      Except.error FrameError.payloadTooLarge ∧
    Frame.make Command.SET_SPEC (List.replicate 64 0) =
      Except.ok ⟨Command.SET_SPEC, List.replicate 64 0⟩ ∧
    ∀ cmd payload f, Frame.make cmd payload = Except.ok f →
      f.payload_len = f.payload.length ∧ f.payload_len ≤ MAX_PAYLOAD ∧
      f.cmd = cmd ∧ f.payload = payload := by
  refine ⟨by decide, by decide, by decide, ?_⟩
  intro cmd payload f h
  unfold Frame.make at h
  split at h
  · exact absurd h (by simp)
  · rename_i hnot
    have hf : f = ⟨cmd, payload⟩ := by
      cases h
      rfl
    subst hf
    refine ⟨rfl, ?_, rfl, rfl⟩
    unfold Frame.payload_len
    simpa using Nat.le_of_not_lt hnot

/-- Witness for C8 at `cmd = 1`, `payload = {5}`. -/
theorem C8_oversized_payload_witness :
    (⟨1, [5]⟩ : Frame).payload_len = (⟨1, [5]⟩ : Frame).payload.length ∧
    (⟨1, [5]⟩ : Frame).payload_len ≤ MAX_PAYLOAD ∧
    (⟨1, [5]⟩ : Frame).cmd = 1 ∧ (⟨1, [5]⟩ : Frame).payload = [5] :=
  C8_oversized_payload.2.2.2 1 [5] ⟨1, [5]⟩ (by decide)

/-- C9 as stated is false: calling `test_single(0xFF)` does not raise an
`ArgumentError` before writing — the request frame for sensor id `0xFF` is
built and written to the transport, and the outcome is the `NAKError`
carrying `INVALID_SENSOR_ID` from the device's NAK reply, exactly as the
tests `test_single_invalid_sensor` and `test_invalid_sensor_id_test_single`
require. -/
theorem C9_counterexample :
    (Client.test_single 0xFF (fun _ => nakInvalidSensorReply)).1 ≠ [] ∧
    (Client.test_single 0xFF (fun _ => nakInvalidSensorReply)).2 =
      Except.error (ClientError.nak ErrorCode.INVALID_SENSOR_ID) ∧
    (Client.test_single 0xFF (fun _ => nakInvalidSensorReply)).2 ≠
      Except.error ClientError.argument := by
  refine ⟨by decide, by decide, by decide⟩

/-- C9 amended: an invalid (reserved) sensor id `0xFF` or `0x00` passed to
`test_single` is sent to the device — the request bytes are written — and
the device's `NAK` reply is surfaced as `NAKError(INVALID_SENSOR_ID)`; no
`ArgumentError` is raised. -/
theorem C9_invalid_sensor_nak (sid : Nat) (h : sid = 0xFF ∨ sid = 0x00) :
    Client.test_single sid (fun _ => nakInvalidSensorReply) =
      (FrameBuilder.build_test_single sid,
        Except.error (ClientError.nak ErrorCode.INVALID_SENSOR_ID)) ∧
    FrameBuilder.build_test_single sid ≠ [] := by
  rcases h with h | h <;> subst h <;> exact ⟨by decide, by decide⟩

/-- Witness for the amended C9 at sensor id `0xFF`. -/
theorem C9_invalid_sensor_nak_witness :
    Client.test_single 0xFF (fun _ => nakInvalidSensorReply) =
      (FrameBuilder.build_test_single 0xFF,
        Except.error (ClientError.nak ErrorCode.INVALID_SENSOR_ID)) ∧
    FrameBuilder.build_test_single 0xFF ≠ [] :=
  C9_invalid_sensor_nak 0xFF (Or.inl rfl)

/-- C10: a frame value is returned only together with the OK result — on any
other result (INCOMPLETE, CRC_ERROR, FORMAT_ERROR) the frame component of
`parse()` is `none`. -/
theorem C10_no_frame_on_error (p : FrameParser) :
    p.parse.1 = ParseResult.OK ∨ p.parse.2.1 = none := by
  have h : ∀ (skip : Nat) (b : List Nat),
      (parseFrom skip b).1 = ParseResult.OK ∨ (parseFrom skip b).2.1 = none := by
    intro skip b
    unfold parseFrom
    split
    · simp
    · simp
    · split
      · simp
      · split
        · simp
        · split
          · split
            · simp
            · split
              · simp
              · simp
          · simp
  exact h (scanLen p.buffer) (p.buffer.drop (scanLen p.buffer))
